import Mathlib

/-!
Verification of the machi-quest session/credential subsystem.

The client-side code embedded here is the axios module
(`src/frontend/machi/src/libs/axios.ts`, seen as `src/unnamed/part_013`,
first document: the version with the `skipAuthRefresh` flag), the auth API
wrapper (`src/frontend/machi/src/libs/api/authApi.ts`), the `AuthProvider`
context (`AuthContext.tsx`, embedded in `next.config.ts` lines 255-377),
the OAuth callback page (`src/app/auth/callback/page.tsx`) and the response
types (`src/types/user.types.ts`).  The backend token-rotation logic is not
part of the repository (the docs list token rotation under "Production
Enhancements"), so it is modelled from the spec where a claim needs it.
-/

/-- The module-level in-memory token holder of `axios.ts`
(`let accessToken: string | null = null`). -/
structure ClientState where
  accessToken : Option String
deriving Repr, DecidableEq

/-- `setAccessToken(token)` from `axios.ts`. -/
def setAccessToken (s : ClientState) (t : Option String) : ClientState :=
  { s with accessToken := t }

/-- `getAccessToken()` from `axios.ts`. -/
def getAccessToken (s : ClientState) : Option String :=
  s.accessToken

/-- The request-config fields the response interceptor reads and writes:
`_retry`, `skipAuthRefresh` and the `Authorization` header. -/
structure RequestConfig where
  retryFlag : Bool                -- `_retry`
  skipAuthRefresh : Bool
  authHeader : Option String      -- `headers.Authorization`
deriving Repr, DecidableEq

/-- The part of an axios rejection the interceptor inspects:
`error.response?.status` (absent on network errors) and `error.config`. -/
structure AxiosError where
  status : Option Nat
  config : RequestConfig
deriving Repr, DecidableEq

/-- A network request as the client code constructs it: method, endpoint
path (relative to `API_BASE_URL`), whether the JSON body is the empty
object `{}`, whether cookies are sent (`withCredentials`), and the
`skipAuthRefresh` marker. -/
structure HttpRequest where
  method : String
  path : String
  bodyIsEmpty : Bool
  withCredentials : Bool
  skipAuthRefresh : Bool
deriving Repr, DecidableEq

/-- `axios.create({ withCredentials: true, ... })`: the instance default
used by every request issued through `axiosInstance`. -/
def axiosInstanceWithCredentials : Bool := true

/-- The refresh call the response interceptor makes on a 401:
`axios.post(API_BASE_URL + "/api/v1/auth/refresh", {},
{ withCredentials: true, skipAuthRefresh: true })`. -/
def interceptorRefreshRequest : HttpRequest :=
  { method := "POST"
    path := "/api/v1/auth/refresh"
    bodyIsEmpty := true
    withCredentials := true
    skipAuthRefresh := true }

/-- Resolution of the interceptor's refresh POST: the server either
resolves with a body carrying `access_token`, or rejects. -/
inductive RefreshOutcome where
  | ok (access_token : String)
  | err
deriving Repr, DecidableEq

/-- What the interceptor's error handler returns to its caller. -/
inductive HandlerOutcome where
  /-- `return axiosInstance(originalRequest)`: the original request is
  re-issued with the (mutated) config. -/
  | retried (cfg : RequestConfig)
  /-- `return Promise.reject(error)`: the original error, unchanged. -/
  | rejectedOriginal
  /-- `return Promise.reject(refreshError)`: the refresh failure. -/
  | rejectedRefreshError
deriving Repr, DecidableEq

/-- The host environment facts the failure branch reads:
`typeof window !== 'undefined'` and
`window.location.pathname.includes('/auth')`. -/
structure BrowserCtx where
  hasWindow : Bool
  pathnameIncludesAuth : Bool
deriving Repr, DecidableEq

/-- One invocation of the error handler: resulting token state, the list
of refresh network requests it issued, its outcome, and whether it set
`window.location.href = '/auth'`. -/
structure HandlerResult where
  state : ClientState
  refreshRequests : List HttpRequest
  outcome : HandlerOutcome
  redirectedToAuth : Bool
deriving Repr, DecidableEq

/-- The response interceptor's error handler (`axios.ts` lines 43-86,
`skipAuthRefresh` version).  `refreshResult` stands for how the awaited
refresh POST resolves in this invocation. -/
def responseErrorHandler (ctx : BrowserCtx) (refreshResult : RefreshOutcome)
    (s : ClientState) (error : AxiosError) : HandlerResult :=
  let originalRequest := error.config
  if error.status = some 401 ∧ originalRequest.retryFlag = false ∧
      originalRequest.skipAuthRefresh = false then
    -- originalRequest._retry = true
    let originalRequest := { originalRequest with retryFlag := true }
    match refreshResult with
    | .ok newAccessToken =>
        -- setAccessToken(newAccessToken); set Authorization; retry
        let s := setAccessToken s (some newAccessToken)
        let originalRequest :=
          { originalRequest with authHeader := some ("Bearer " ++ newAccessToken) }
        { state := s
          refreshRequests := [interceptorRefreshRequest]
          outcome := .retried originalRequest
          redirectedToAuth := false }
    | .err =>
        -- setAccessToken(null); maybe redirect; reject with refreshError
        let s := setAccessToken s none
        { state := s
          refreshRequests := [interceptorRefreshRequest]
          outcome := .rejectedRefreshError
          redirectedToAuth := ctx.hasWindow && !ctx.pathnameIncludesAuth }
  else
    { state := s
      refreshRequests := []
      outcome := .rejectedOriginal
      redirectedToAuth := false }

/-- A request that has just observed a 401 for the first time: not yet
retried, not marked `skipAuthRefresh`. -/
def fresh401 : AxiosError :=
  { status := some 401
    config := { retryFlag := false, skipAuthRefresh := false, authHeader := none } }

/-- N logical callers whose requests all failed with a fresh 401 at the
same time: each runs the error handler once; `outcomes` gives how each
caller's own refresh POST resolves.  The handler's branching never reads
the shared token state, so the call count is independent of interleaving. -/
def concurrentRefreshCalls (ctx : BrowserCtx) (s : ClientState)
    (outcomes : List RefreshOutcome) : Nat :=
  (outcomes.map
    (fun r => (responseErrorHandler ctx r s fresh401).refreshRequests.length)).sum

/-- C10: for every failed response whose status is not 401, or whose
request is already marked `_retry` or `skipAuthRefresh`, the interceptor
rejects with the original error unchanged, issues no refresh call, and
leaves the stored access token exactly as it was. -/
theorem non_401_or_retried_requests_pass_through
    (ctx : BrowserCtx) (r : RefreshOutcome) (s : ClientState) (e : AxiosError)
    (h : e.status ≠ some 401 ∨ e.config.retryFlag = true ∨
      e.config.skipAuthRefresh = true) :
    responseErrorHandler ctx r s e =
      { state := s, refreshRequests := [], outcome := .rejectedOriginal,
        redirectedToAuth := false } := by
  unfold responseErrorHandler
  rcases h with h | h | h
  · rw [if_neg]
    rintro ⟨h1, -, -⟩
    exact h h1
  · rw [if_neg]
    rintro ⟨-, h2, -⟩
    rw [h] at h2
    cases h2
  · rw [if_neg]
    rintro ⟨-, -, h3⟩
    rw [h] at h3
    cases h3

theorem non_401_or_retried_requests_pass_through_witness :
    ((⟨some 500, ⟨false, false, none⟩⟩ : AxiosError).status ≠ some 401 ∨
      (⟨some 500, ⟨false, false, none⟩⟩ : AxiosError).config.retryFlag = true ∨
      (⟨some 500, ⟨false, false, none⟩⟩ : AxiosError).config.skipAuthRefresh = true) ∧
    responseErrorHandler ⟨true, false⟩ .err ⟨some "tok"⟩ ⟨some 500, ⟨false, false, none⟩⟩ =
      { state := ⟨some "tok"⟩, refreshRequests := [], outcome := .rejectedOriginal,
        redirectedToAuth := false } :=
  ⟨Or.inl (by decide),
    non_401_or_retried_requests_pass_through ⟨true, false⟩ .err ⟨some "tok"⟩
      ⟨some 500, ⟨false, false, none⟩⟩ (Or.inl (by decide))⟩

/-- C4: for every failed refresh attempt the client discards the cached
access token (sets it to `null`), rejects the caller with the refresh
failure, and redirects to the auth page exactly when in a browser context
whose pathname is outside `/auth`. -/
theorem refresh_failure_clears_token_and_rejects
    (ctx : BrowserCtx) (s : ClientState) (e : AxiosError)
    (h401 : e.status = some 401) (hr : e.config.retryFlag = false)
    (hs : e.config.skipAuthRefresh = false) :
    (responseErrorHandler ctx .err s e).state.accessToken = none ∧
    (responseErrorHandler ctx .err s e).outcome = .rejectedRefreshError ∧
    (responseErrorHandler ctx .err s e).refreshRequests = [interceptorRefreshRequest] ∧
    (responseErrorHandler ctx .err s e).redirectedToAuth =
      (ctx.hasWindow && !ctx.pathnameIncludesAuth) := by
  unfold responseErrorHandler
  rw [if_pos ⟨h401, hr, hs⟩]
  exact ⟨rfl, rfl, rfl, rfl⟩

theorem refresh_failure_clears_token_and_rejects_witness :
    fresh401.status = some 401 ∧ fresh401.config.retryFlag = false ∧
    fresh401.config.skipAuthRefresh = false ∧
    ((responseErrorHandler ⟨true, false⟩ .err ⟨some "old"⟩ fresh401).state.accessToken = none ∧
      (responseErrorHandler ⟨true, false⟩ .err ⟨some "old"⟩ fresh401).outcome =
        .rejectedRefreshError ∧
      (responseErrorHandler ⟨true, false⟩ .err ⟨some "old"⟩ fresh401).refreshRequests =
        [interceptorRefreshRequest] ∧
      (responseErrorHandler ⟨true, false⟩ .err ⟨some "old"⟩ fresh401).redirectedToAuth =
        ((true : Bool) && !(false : Bool))) :=
  ⟨rfl, rfl, rfl,
    refresh_failure_clears_token_and_rejects ⟨true, false⟩ ⟨some "old"⟩ fresh401
      rfl rfl rfl⟩

/-- C1 counterexample: two callers that concurrently observe a fresh 401
each issue their own refresh POST — two refresh network calls, not one.
The interceptor has no shared in-flight refresh, so there is no
single-flight deduplication. -/
theorem two_concurrent_401s_trigger_two_refresh_calls :
    concurrentRefreshCalls ⟨true, false⟩ ⟨none⟩ [.ok "t", .ok "t"] = 2 ∧
    (2 : Nat) ≠ 1 := by
  constructor
  · rfl
  · decide

/-- C1 amended: each of the N callers that concurrently observe a fresh
401 independently issues its own refresh network call (N calls in total),
and each caller whose own refresh resolves with token `t` is retried with
`Authorization: Bearer t` — there is no cross-caller deduplication, only
the per-request `_retry`/`skipAuthRefresh` guards. -/
theorem concurrent_401_callers_each_issue_own_refresh
    (ctx : BrowserCtx) (s : ClientState) (outcomes : List RefreshOutcome) :
    concurrentRefreshCalls ctx s outcomes = outcomes.length ∧
    ∀ t : String, (responseErrorHandler ctx (.ok t) s fresh401).outcome =
      .retried { retryFlag := true, skipAuthRefresh := false,
                 authHeader := some ("Bearer " ++ t) } := by
  constructor
  · unfold concurrentRefreshCalls
    induction outcomes with
    | nil => rfl
    | cons r rest ih =>
        simp only [List.map_cons, List.sum_cons, List.length_cons]
        rw [ih]
        have h1 : (responseErrorHandler ctx r s fresh401).refreshRequests.length = 1 := by
          unfold responseErrorHandler fresh401
          cases r <;> rfl
        omega
  · intro t
    rfl

/-- C3: a request that observes a fresh 401 is retried exactly once after
a successful refresh (one refresh call, outcome `retried` with `_retry`
set); any later failure of that retried request — any status, 401
included — is rejected as-is: no further refresh call, state untouched. -/
theorem retry_after_refresh_exactly_once
    (ctx ctx2 : BrowserCtx) (r2 : RefreshOutcome) (s s2 : ClientState) (t : String) :
    (responseErrorHandler ctx (.ok t) s fresh401).refreshRequests.length = 1 ∧
    ∀ cfg, (responseErrorHandler ctx (.ok t) s fresh401).outcome = .retried cfg →
      cfg.retryFlag = true ∧
      ∀ status2 : Option Nat,
        responseErrorHandler ctx2 r2 s2 { status := status2, config := cfg } =
          { state := s2, refreshRequests := [], outcome := .rejectedOriginal,
            redirectedToAuth := false } := by
  refine ⟨rfl, ?_⟩
  intro cfg hcfg
  have hc : cfg = ⟨true, false, some ("Bearer " ++ t)⟩ := by
    have h0 : (responseErrorHandler ctx (.ok t) s fresh401).outcome =
        .retried ⟨true, false, some ("Bearer " ++ t)⟩ := rfl
    rw [h0] at hcfg
    cases hcfg
    rfl
  subst hc
  refine ⟨rfl, ?_⟩
  intro status2
  exact non_401_or_retried_requests_pass_through ctx2 r2 s2 _ (Or.inr (Or.inl rfl))

theorem retry_after_refresh_exactly_once_witness :
    responseErrorHandler ⟨false, false⟩ .err ⟨some "x"⟩
        ⟨some 401, ⟨true, false, some ("Bearer " ++ "newTok")⟩⟩ =
      { state := ⟨some "x"⟩, refreshRequests := [], outcome := .rejectedOriginal,
        redirectedToAuth := false } :=
  ((retry_after_refresh_exactly_once ⟨true, false⟩ ⟨false, false⟩ .err ⟨none⟩
      ⟨some "x"⟩ "newTok").2
    ⟨true, false, some ("Bearer " ++ "newTok")⟩ rfl).2 (some 401)

/-- The login/signup response shape
(`src/types/user.types.ts` lines 25-28): the JSON body carries
`access_token` and `token_type`. -/
structure AuthResponse where
  access_token : String
  token_type : String
deriving Repr, DecidableEq

/-- `src/types/user.types.ts` lines 5-12. -/
structure User where
  id : String
  email : String
  display_name : String
  avatar_url : Option String
  github_username : Option String
  google_id : Option String
deriving Repr, DecidableEq

/-- `authApi.login` on a resolved response: `setAccessToken(data.access_token)`
and the body is returned to the caller. -/
def login (s : ClientState) (data : AuthResponse) : ClientState × AuthResponse :=
  (setAccessToken s (some data.access_token), data)

/-- C6 counterexample: the login response body is not "the access token
and nothing else" — `AuthResponse` also carries `token_type`, so two
distinct bodies share the same `access_token`. -/
theorem login_body_not_only_access_token :
    (⟨"tok", "bearer"⟩ : AuthResponse).access_token =
      (⟨"tok", "Bearer"⟩ : AuthResponse).access_token ∧
    (⟨"tok", "bearer"⟩ : AuthResponse) ≠ (⟨"tok", "Bearer"⟩ : AuthResponse) := by
  constructor
  · rfl
  · decide

/-- C6 amended: a successful login's JSON body consists of exactly the
fields `access_token` and `token_type` (no refresh token in the body: the
refresh token travels only on the protected cookie channel), and the
client stores exactly the `access_token` field in memory. -/
theorem login_stores_access_token_body_fields :
    (∀ s : ClientState, ∀ d : AuthResponse,
      (login s d).1.accessToken = some d.access_token ∧ (login s d).2 = d) ∧
    (∀ r₁ r₂ : AuthResponse, r₁.access_token = r₂.access_token →
      r₁.token_type = r₂.token_type → r₁ = r₂) := by
  constructor
  · intro s d
    exact ⟨rfl, rfl⟩
  · intro r₁ r₂ h1 h2
    cases r₁
    cases r₂
    simp_all

theorem login_stores_access_token_body_fields_witness :
    (login ⟨none⟩ ⟨"tok", "bearer"⟩).1.accessToken = some "tok" ∧
    (⟨"tok", "bearer"⟩ : AuthResponse) = ⟨"tok", "bearer"⟩ :=
  ⟨(login_stores_access_token_body_fields.1 ⟨none⟩ ⟨"tok", "bearer"⟩).1,
    login_stores_access_token_body_fields.2 ⟨"tok", "bearer"⟩ ⟨"tok", "bearer"⟩ rfl rfl⟩

/-- `authApi.refreshToken`: `axiosInstance.post('/api/v1/auth/refresh', {},
{ skipAuthRefresh: true })` — `withCredentials` comes from the instance
default set in `axios.create`. -/
def authApiRefreshRequest : HttpRequest :=
  { method := "POST"
    path := "/api/v1/auth/refresh"
    bodyIsEmpty := true
    withCredentials := axiosInstanceWithCredentials
    skipAuthRefresh := true }

/-- `authApi.refreshToken` on a resolved response:
`setAccessToken(data.access_token)`. -/
def refreshTokenSuccess (s : ClientState) (data : AuthResponse) : ClientState :=
  setAccessToken s (some data.access_token)

/-- C7: both refresh call sites — `authApi.refreshToken` and the response
interceptor — send POST `/api/v1/auth/refresh` with an empty body and
credentials (cookies) included, and a successful refresh stores the
returned access token as the current in-memory token. -/
theorem refresh_request_shape_and_token_store :
    authApiRefreshRequest.method = "POST" ∧
    authApiRefreshRequest.path = "/api/v1/auth/refresh" ∧
    authApiRefreshRequest.bodyIsEmpty = true ∧
    authApiRefreshRequest.withCredentials = true ∧
    interceptorRefreshRequest.method = "POST" ∧
    interceptorRefreshRequest.path = "/api/v1/auth/refresh" ∧
    interceptorRefreshRequest.bodyIsEmpty = true ∧
    interceptorRefreshRequest.withCredentials = true ∧
    (∀ s : ClientState, ∀ d : AuthResponse,
      (refreshTokenSuccess s d).accessToken = some d.access_token) ∧
    (∀ ctx : BrowserCtx, ∀ s : ClientState, ∀ t : String,
      (responseErrorHandler ctx (.ok t) s fresh401).state.accessToken = some t) := by
  refine ⟨rfl, rfl, rfl, rfl, rfl, rfl, rfl, rfl, ?_, ?_⟩
  · intro s d
    rfl
  · intro ctx s t
    rfl

/-- The React state the `AuthProvider` owns next to the axios module's
token holder: the `user` state variable. -/
structure AppAuthState where
  client : ClientState
  user : Option User
deriving Repr, DecidableEq

/-- Whether a network call resolves or rejects. -/
inductive NetOutcome where
  | ok
  | err
deriving Repr, DecidableEq

/-- `authApi.logout`: `await axiosInstance.post('/api/v1/auth/logout')`
then `setAccessToken(null)`.  There is no try/catch here, so when the
POST rejects the throw propagates before `setAccessToken` runs.  Returns
(client state, whether the logout POST was issued, whether it threw). -/
def authApiLogout (s : ClientState) (net : NetOutcome) :
    ClientState × Bool × Bool :=
  match net with
  | .ok => (setAccessToken s none, true, true = false)
  | .err => (s, true, true)

/-- `AuthProvider.logout`: `try { await authApi.logout() } catch { log }
finally { setAccessToken(null); setUser(null) }`. -/
def providerLogout (st : AppAuthState) (net : NetOutcome) :
    AppAuthState × Bool :=
  let r := authApiLogout st.client net
  -- the finally block runs whether or not authApi.logout threw
  ({ client := setAccessToken r.1 none, user := none }, r.2.1)

/-- C8: every client logout issues the POST `/auth/logout` revocation
call, and whether that call succeeds or rejects, the operation ends with
the in-memory access token and the user state both `null`. -/
theorem logout_always_clears_token_and_user
    (st : AppAuthState) (net : NetOutcome) :
    (providerLogout st net).2 = true ∧
    (providerLogout st net).1.client.accessToken = none ∧
    (providerLogout st net).1.user = none := by
  cases net <;> exact ⟨rfl, rfl, rfl⟩

/-- `authApi.refreshToken` as `AuthProvider` sees it: on a resolved
response the body's `access_token` is stored; on rejection the throw
propagates (the refresh POST is marked `skipAuthRefresh`, so the
interceptor leaves state alone and re-rejects,
`non_401_or_retried_requests_pass_through`). -/
def apiRefreshToken (c : ClientState) (net : Option AuthResponse) :
    Except String ClientState :=
  match net with
  | some d => .ok (setAccessToken c (some d.access_token))
  | none => .error "refresh failed"

/-- The body of `AuthProvider.refreshUser` before its outer catch:
read the in-memory token; when absent, try a cookie refresh and on its
failure set `user := null` and return early; then fetch `/users/me`
(`fetchNet` is how that fetch resolves) and set `user`. -/
def refreshUserBody (st : AppAuthState) (refreshNet : Option AuthResponse)
    (fetchNet : Except String User) : Except String AppAuthState :=
  match getAccessToken st.client with
  | none =>
    match apiRefreshToken st.client refreshNet with
    | .error _ => .ok { st with user := none }     -- inner catch: early return
    | .ok c =>
      match fetchNet with
      | .ok u => .ok { client := c, user := some u }
      | .error e => .error e
  | some _ =>
    match fetchNet with
    | .ok u => .ok { st with user := some u }
    | .error e => .error e

/-- `AuthProvider.refreshUser`: the body wrapped in the outer
`catch (error) { setAccessToken(null); setUser(null) }`. -/
def refreshUser (st : AppAuthState) (refreshNet : Option AuthResponse)
    (fetchNet : Except String User) : Except String AppAuthState :=
  match refreshUserBody st refreshNet fetchNet with
  | .ok st2 => .ok st2
  | .error _ => .ok { client := setAccessToken st.client none, user := none }

/-- C5: `refreshUser` never lets an error escape — it always returns
normally — and on each of its error paths (no in-memory token and the
cookie refresh rejects, or the user fetch rejects) it ends logged out:
`user = null` and the in-memory access token cleared. -/
theorem refreshUser_never_throws_degrades_logged_out
    (st : AppAuthState) (refreshNet : Option AuthResponse)
    (fetchNet : Except String User) :
    (∃ st2, refreshUser st refreshNet fetchNet = .ok st2) ∧
    ((st.client.accessToken = none ∧ refreshNet = none) ∨
        (∃ e, fetchNet = .error e) →
      refreshUser st refreshNet fetchNet = .ok ⟨⟨none⟩, none⟩) := by
  constructor
  · unfold refreshUser
    cases h : refreshUserBody st refreshNet fetchNet with
    | ok st2 => exact ⟨st2, rfl⟩
    | error e => exact ⟨_, rfl⟩
  · rintro (⟨hTok, hNet⟩ | ⟨e, hFetch⟩)
    · obtain ⟨⟨tok⟩, u⟩ := st
      subst hNet
      change tok = none at hTok
      subst hTok
      rfl
    · subst hFetch
      unfold refreshUser refreshUserBody apiRefreshToken getAccessToken
      obtain ⟨⟨tok⟩, u⟩ := st
      cases tok with
      | none =>
        cases refreshNet with
        | none => rfl
        | some d => rfl
      | some t => rfl

theorem refreshUser_never_throws_degrades_logged_out_witness :
    (∃ st2, refreshUser ⟨⟨some "tok"⟩, none⟩ none (.error "boom") = .ok st2) ∧
    refreshUser ⟨⟨some "tok"⟩, none⟩ none (.error "boom") = .ok ⟨⟨none⟩, none⟩ :=
  ⟨(refreshUser_never_throws_degrades_logged_out ⟨⟨some "tok"⟩, none⟩ none
      (.error "boom")).1,
    (refreshUser_never_throws_degrades_logged_out ⟨⟨some "tok"⟩, none⟩ none
      (.error "boom")).2 (Or.inr ⟨"boom", rfl⟩)⟩

/-- The callback page's `status` state variable. -/
inductive CallbackStatus where
  | loading
  | success
  | error
deriving Repr, DecidableEq

/-- One run of `AuthCallbackContent.handleCallback`: final auth state,
final page status, the `error` state value, whether `refreshUser` was
invoked, and the navigation target queued on success. -/
structure CallbackResult where
  app : AppAuthState
  status : CallbackStatus
  errorMsg : Option String
  fetchAttempted : Bool
  redirectTo : Option String
deriving Repr, DecidableEq

/-- `AuthCallbackContent.handleCallback` (`callback/page.tsx` lines
16-43): read `access_token` from the URL query; when the parameter is
absent (or empty — the JS guard is falsiness) set the error state and
return without storing a token or fetching the user; otherwise store the
token, run `refreshUser`, and on its normal return mark success and queue
the `/dashboard` redirect.  `refreshNet`/`fetchNet` feed the inner
`refreshUser` call. -/
def handleCallback (st : AppAuthState) (param : Option String)
    (refreshNet : Option AuthResponse) (fetchNet : Except String User) :
    CallbackResult :=
  match param with
  | none =>
    { app := st, status := .error,
      errorMsg := some "Authentication failed: Missing access token",
      fetchAttempted := false, redirectTo := none }
  | some tok =>
    if tok = "" then
      { app := st, status := .error,
        errorMsg := some "Authentication failed: Missing access token",
        fetchAttempted := false, redirectTo := none }
    else
      let st1 : AppAuthState := { st with client := setAccessToken st.client (some tok) }
      match refreshUser st1 refreshNet fetchNet with
      | .ok st2 =>
        { app := st2, status := .success, errorMsg := none,
          fetchAttempted := true, redirectTo := some "/dashboard" }
      | .error e =>
        -- the page's catch branch; unreachable through refreshUser, which
        -- always returns normally
        { app := st1, status := .error, errorMsg := some e,
          fetchAttempted := true, redirectTo := none }

/-- C9: when the callback URL lacks the `access_token` parameter the page
enters the error state, stores no token and never calls `refreshUser`;
when the parameter carries a token and the user fetch succeeds, the token
is stored in memory, the user is fetched, and the page reaches the
success state. -/
theorem oauth_callback_token_or_error
    (st : AppAuthState) (refreshNet : Option AuthResponse)
    (fetchNet : Except String User) (t : String) (u : User)
    (ht : t ≠ "") :
    handleCallback st none refreshNet fetchNet =
      { app := st, status := .error,
        errorMsg := some "Authentication failed: Missing access token",
        fetchAttempted := false, redirectTo := none } ∧
    (fetchNet = .ok u →
      handleCallback st (some t) refreshNet fetchNet =
        { app := ⟨⟨some t⟩, some u⟩, status := .success, errorMsg := none,
          fetchAttempted := true, redirectTo := some "/dashboard" }) := by
  constructor
  · rfl
  · intro hFetch
    subst hFetch
    have hru : refreshUser ⟨setAccessToken st.client (some t), st.user⟩
        refreshNet (.ok u) = .ok ⟨⟨some t⟩, some u⟩ := by
      unfold refreshUser refreshUserBody getAccessToken setAccessToken
      rfl
    simp only [handleCallback]
    rw [if_neg ht]
    simp only [hru]

theorem oauth_callback_token_or_error_witness :
    handleCallback ⟨⟨none⟩, none⟩ none none (.error "x") =
      { app := ⟨⟨none⟩, none⟩, status := .error,
        errorMsg := some "Authentication failed: Missing access token",
        fetchAttempted := false, redirectTo := none } ∧
    handleCallback ⟨⟨none⟩, none⟩ (some "tok") none
        (.ok ⟨"id1", "e@x", "dн", none, none, none⟩) =
      { app := ⟨⟨some "tok"⟩, some ⟨"id1", "e@x", "dн", none, none, none⟩⟩,
        status := .success, errorMsg := none,
        fetchAttempted := true, redirectTo := some "/dashboard" } :=
  ⟨(oauth_callback_token_or_error ⟨⟨none⟩, none⟩ none (.error "x") "tok"
      ⟨"id1", "e@x", "dн", none, none, none⟩ (by decide)).1,
    (oauth_callback_token_or_error ⟨⟨none⟩, none⟩ none
      (.ok ⟨"id1", "e@x", "dн", none, none, none⟩) "tok"
      ⟨"id1", "e@x", "dн", none, none, none⟩ (by decide)).2 rfl⟩

/-- Modelled from the spec: the Session record of the Token Issuer /
Session Store (spec §3) — one rotation family with its monotonic version
counter, revocation flag and expiry state.  The server implementation is
absent from the repository (its docs list "Implement Token Rotation"
under Production Enhancements); only the token hash identity relevant to
rotation is kept. -/
structure Session where
  familyId : Nat
  version : Nat
  revoked : Bool
  expired : Bool
deriving Repr, DecidableEq

/-- Modelled from the spec: an opaque refresh token, identified by the
family it belongs to and the version at which it was minted (standing for
the stored hash of the raw value; the hash is injective on tokens). -/
structure RefreshToken where
  familyId : Nat
  version : Nat
deriving Repr, DecidableEq

/-- Modelled from the spec: the outcomes of `rotate`
(spec §4.1).  `success` carries the freshly minted refresh token; the
accompanying fresh access token is not modelled, no claim reads it. -/
inductive RotateResult where
  | success (newToken : RefreshToken)
  | reuseDetected
  | notFound
  | expired
deriving Repr, DecidableEq

/-- Modelled from the spec: the Session Store as a transactional
key-value store from family id to session record (spec §1 treats the
database as exactly that). -/
abbrev SessionStore := Nat → Option Session

/-- Modelled from the spec: write one family's record back to the store. -/
def setSession (st : SessionStore) (fid : Nat) (s : Session) : SessionStore :=
  fun k => if k = fid then some s else st k

/-- Modelled from the spec: `rotate(rawRefreshToken)` (spec §4.1), one
atomic transaction (spec §5).  Look up the session by the presented
token's hash/family; a dead (revoked) family is no longer alive, so the
lookup fails with `notFound` (the claim needs only that it is not a
success); an expired session fails with `expired`; a presented token
matching the current version advances the version and mints the successor
token; a token of the family that is not current is reuse: the entire
family is marked revoked and rotation fails with `reuseDetected`. -/
def rotate (st : SessionStore) (tok : RefreshToken) :
    RotateResult × SessionStore :=
  match st tok.familyId with
  | none => (.notFound, st)
  | some s =>
    if s.revoked then (.notFound, st)
    else if s.expired then (.expired, st)
    else if tok.version = s.version then
      (.success ⟨tok.familyId, s.version + 1⟩,
        setSession st tok.familyId { s with version := s.version + 1 })
    else
      (.reuseDetected, setSession st tok.familyId { s with revoked := true })

/-- C2: rotation is single-use with family-wide reuse detection: for a
valid refresh token, presenting the same raw token twice (the two calls
serialize, since rotation is one atomic transaction) yields exactly one
success and one `reuseDetected`; the reuse detection marks the whole
family revoked; and after either outcome no call with the original token
can ever succeed again. -/
theorem rotate_single_use_reuse_revokes_family
    (st : SessionStore) (tok : RefreshToken) (s : Session)
    (hfind : st tok.familyId = some s)
    (hrev : s.revoked = false) (hexp : s.expired = false)
    (hcur : tok.version = s.version) :
    (rotate st tok).1 = .success ⟨tok.familyId, s.version + 1⟩ ∧
    (rotate (rotate st tok).2 tok).1 = .reuseDetected ∧
    (rotate (rotate st tok).2 tok).2 tok.familyId =
      some ⟨s.familyId, s.version + 1, true, s.expired⟩ ∧
    (∀ nt, (rotate st tok).1 ≠ .reuseDetected ∧
      (rotate (rotate st tok).2 tok).1 ≠ .success nt ∧
      (rotate (rotate (rotate st tok).2 tok).2 tok).1 ≠ .success nt) := by
  have h1 : rotate st tok =
      (.success ⟨tok.familyId, s.version + 1⟩,
        setSession st tok.familyId { s with version := s.version + 1 }) := by
    unfold rotate
    rw [hfind]
    simp [hrev, hexp, hcur]
  have hlook1 : (setSession st tok.familyId { s with version := s.version + 1 })
      tok.familyId = some { s with version := s.version + 1 } := by
    unfold setSession
    simp
  have h2 : rotate (setSession st tok.familyId { s with version := s.version + 1 }) tok =
      (.reuseDetected,
        setSession (setSession st tok.familyId { s with version := s.version + 1 })
          tok.familyId ⟨s.familyId, s.version + 1, true, s.expired⟩) := by
    unfold rotate
    rw [hlook1]
    simp [hrev, hexp, hcur]
  have hlook2 : (setSession (setSession st tok.familyId
        { s with version := s.version + 1 })
      tok.familyId ⟨s.familyId, s.version + 1, true, s.expired⟩) tok.familyId =
      some ⟨s.familyId, s.version + 1, true, s.expired⟩ := by
    unfold setSession
    simp
  have h3 : (rotate (setSession (setSession st tok.familyId
        { s with version := s.version + 1 })
      tok.familyId ⟨s.familyId, s.version + 1, true, s.expired⟩) tok).1 = .notFound := by
    unfold rotate
    rw [hlook2]
    simp
  rw [h1]
  refine ⟨rfl, ?_, ?_, ?_⟩
  · rw [h2]
  · rw [h2]
    exact hlook2
  · intro nt
    refine ⟨by simp, ?_, ?_⟩
    · rw [h2]
      simp
    · rw [h2]
      simp only
      rw [h3]
      simp

theorem rotate_single_use_reuse_revokes_family_witness :
    (fun k => if k = 0 then some (⟨0, 0, false, false⟩ : Session) else none) 0 =
      some ⟨0, 0, false, false⟩ ∧
    (rotate (fun k => if k = 0 then some ⟨0, 0, false, false⟩ else none)
        ⟨0, 0⟩).1 = .success ⟨0, 1⟩ ∧
    (rotate (rotate (fun k => if k = 0 then some ⟨0, 0, false, false⟩ else none)
        ⟨0, 0⟩).2 ⟨0, 0⟩).1 = .reuseDetected ∧
    (rotate (rotate (fun k => if k = 0 then some ⟨0, 0, false, false⟩ else none)
        ⟨0, 0⟩).2 ⟨0, 0⟩).2 0 = some ⟨0, 1, true, false⟩ :=
  ⟨rfl,
    (rotate_single_use_reuse_revokes_family
      (fun k => if k = 0 then some ⟨0, 0, false, false⟩ else none)
      ⟨0, 0⟩ ⟨0, 0, false, false⟩ rfl rfl rfl rfl).1,
    (rotate_single_use_reuse_revokes_family
      (fun k => if k = 0 then some ⟨0, 0, false, false⟩ else none)
      ⟨0, 0⟩ ⟨0, 0, false, false⟩ rfl rfl rfl rfl).2.1,
    (rotate_single_use_reuse_revokes_family
      (fun k => if k = 0 then some ⟨0, 0, false, false⟩ else none)
      ⟨0, 0⟩ ⟨0, 0, false, false⟩ rfl rfl rfl rfl).2.2.1⟩
